import Mathlib

/-!
Verification development for the connection orchestration layer of the
experimental-hub frontend.

The embedding models the `Connection` class (file
src/frontend/src/components/organisms/WatchingRoomTabs/WatchingRoomTabs.js,
second document segment, originally networking/Connection.ts) and the
`SubConnection` class (src/frontend/src/networking/SubConnection.ts, first
document segment).  Browser state (RTCPeerConnection, the data channel) is
modelled explicitly; externally visible actions (event-handler triggers,
network requests, channel writes, log lines, track and transceiver
operations) are collected in an explicit effect list.  Asynchronous inputs
(the fetch outcome of the offer request, parsed inbound payloads) are
passed as parameters.
-/

/-- Model of a JSON value, as produced by JSON.parse / consumed by
JSON.stringify in the source.  Numbers are restricted to integers; no
claim depends on non-integer numerics. -/
inductive Json where
  | null
  | bool (b : Bool)
  | num (n : Int)
  | str (s : String)
  | arr (elems : List Json)
  | obj (fields : List (String × Json))

/-- Property access `j[key]` on a parsed JSON value: `some` when the field
exists on an object, `none` (undefined) otherwise. -/
def Json.getField : Json → String → Option Json
  | .obj fields, key => fields.lookup key
  | _, _ => none

/-- Escape one character for a JSON string literal (model of the platform
serializer; only the escapes claims can meet are spelled out). -/
def Json.escapeChar (c : Char) : String :=
  if c = '\"' then "\\\"" else if c = '\\' then "\\\\" else String.singleton c

/-- Render a JSON string literal with surrounding quotes. -/
def Json.escape (s : String) : String :=
  "\"" ++ String.join (s.toList.map Json.escapeChar) ++ "\""

mutual

/-- Model of the platform JSON.stringify on the Json model. -/
def Json.stringify : Json → String
  | .null => "null"
  | .bool true => "true"
  | .bool false => "false"
  | .num n => toString n
  | .str s => Json.escape s
  | .arr elems => "[" ++ Json.stringifyElems elems ++ "]"
  | .obj fields => "\x7b" ++ Json.stringifyFields fields ++ "\x7d"

/-- Comma-separated rendering of array elements. -/
def Json.stringifyElems : List Json → String
  | [] => ""
  | [x] => Json.stringify x
  | x :: y :: rest => Json.stringify x ++ "," ++ Json.stringifyElems (y :: rest)

/-- Comma-separated rendering of object fields. -/
def Json.stringifyFields : List (String × Json) → String
  | [] => ""
  | [(k, v)] => Json.escape k ++ ":" ++ Json.stringify v
  | (k, v) :: f :: rest =>
      Json.escape k ++ ":" ++ Json.stringify v ++ "," ++ Json.stringifyFields (f :: rest)

end

/-- The `type` field of a message or negotiation answer when it holds a
string, `none` otherwise (mirrors reading `.type` and comparing it with a
string in the source: the comparison can only succeed on a string field). -/
def msgType (j : Json) : Option String :=
  match j.getField "type" with
  | some (.str t) => some t
  | _ => none

/-- ConnectionState enum of the source (WatchingRoomTabs.js lines 52-58). -/
inductive ConnectionState where
  | NOT_STARTED
  | CONNECTING
  | CONNECTED
  | DISCONNECTED
  | FAILED
deriving DecidableEq, Repr

/-- The two user types accepted by the Connection constructor. -/
inductive UserType where
  | participant
  | experimenter
deriving DecidableEq, Repr

/-- Errors thrown by Connection methods (all are plain `Error` in the
source; the constructor distinguishes them only by message). -/
inductive ConnError where
  | constructionError
  | mediaError
  | stateError
deriving DecidableEq, Repr

/-- Body of the offer request sent to BACKEND/offer (negotiate, lines
266-281).  The experimenter variant carries no session or participant id;
that is modelled by `none` fields. -/
structure OfferRequest where
  sdp : String
  descType : String
  user_type : String
  session_id : Option String
  participant_id : Option String
deriving DecidableEq

/-- Externally visible actions of a Connection, in program order. -/
inductive Effect where
  | stateNotify (s : ConnectionState)
  | streamNotify
  | logInfo (msg : String)
  | logError (msg : String)
  | addTrack (track : Nat)
  | transceiverStop (t : Nat)
  | trackStop (t : Nat)
  | scheduleMainPcClose
  | fetchOffer (req : OfferRequest)
  | setRemoteDesc (desc : Json)
  | dcSend (payload : String)
  | apiDispatch (t : String) (handlers : List Nat) (data : Json)

/-- The slice of RTCPeerConnection state the Connection code reads or
writes: connectionState (compared against "closed" in stop), the senders
added by addTrack, and the transceivers. -/
structure RTCPeerConnectionM where
  connectionState : String
  senders : List Nat
  transceivers : List Nat
deriving DecidableEq

/-- State of one Connection instance.  `state` is the private `_state`
field (the public getter returns it unchanged).  The three logs are
instrumentation for trace claims: `stateLog` records every value stored
into `_state` after construction, `notifLog` every value delivered by
`connectionStateChange.trigger`, and `observedLog` the value a handler
reading the public state getter sees at the moment of each trigger. -/
structure Connection where
  userType : UserType
  sessionId : Option String
  participantId : Option String
  state : ConnectionState
  localStream : Option (List Nat)
  remoteTracks : List Nat
  mainPc : RTCPeerConnectionM
  apiHandlers : List (String × List Nat)
  stateLog : List ConnectionState
  notifLog : List ConnectionState
  observedLog : List ConnectionState
deriving DecidableEq

/-- JS falsiness of an optional string (`!s`): true for undefined and for
the empty string. -/
def strFalsy : Option String → Bool
  | none => true
  | some s => s = ""

/-- Fresh Connection record as produced by a successful constructor run
(lines 80-96): state NOT_STARTED, empty remote stream, fresh handlers, a
new peer connection. -/
def freshConn (userType : UserType) (sessionId participantId : Option String) : Connection :=
  { userType := userType
    sessionId := sessionId
    participantId := participantId
    state := ConnectionState.NOT_STARTED
    localStream := none
    remoteTracks := []
    mainPc := { connectionState := "new", senders := [], transceivers := [] }
    apiHandlers := []
    stateLog := []
    notifLog := []
    observedLog := [] }

/-- Connection constructor (lines 80-96): a participant identity requires
both a participant id and a session id (JS falsiness check), otherwise the
constructor throws before creating any state. -/
def Connection.construct (userType : UserType) (sessionId participantId : Option String) :
    Except ConnError Connection :=
  if userType = UserType.participant ∧ (strFalsy participantId ∨ strFalsy sessionId) then
    Except.error ConnError.constructionError
  else
    Except.ok (freshConn userType sessionId participantId)

/-- First half of setState (line 168): `this._state = state`. -/
def Connection.storeState (c : Connection) (s : ConnectionState) : Connection :=
  { c with state := s, stateLog := c.stateLog ++ [s] }

/-- Second half of setState (line 169):
`this.connectionStateChange.trigger(state)`.  Handlers run against the
connection as it is at this moment; `observedLog` records what the public
state getter returns to a handler during the trigger. -/
def Connection.triggerStateChange (c : Connection) (v : ConnectionState) :
    Connection × List Effect :=
  ({ c with notifLog := c.notifLog ++ [v], observedLog := c.observedLog ++ [c.state] },
   [Effect.stateNotify v])

/-- setState (lines 167-170): store the new state, then trigger the
state-change handlers with the same value. -/
def Connection.setState (c : Connection) (s : ConnectionState) : Connection × List Effect :=
  (c.storeState s).triggerStateChange s

/-- Outcome of the fetch of BACKEND/offer: the fetch promise rejects
(transport fault), or a response arrives with an ok flag and a parsed
JSON body. -/
inductive FetchOutcome where
  | fault (msg : String)
  | response (ok : Bool) (body : Json)

/-- Environment of one negotiate run: the local description produced by
createOffer/setLocalDescription after ICE gathering, and the outcome of
the offer request. -/
structure NegotiateEnv where
  localSdp : String
  localDescType : String
  fetchOutcome : FetchOutcome

/-- negotiate (lines 240-320).  createOffer, setLocalDescription and the
ICE-gathering wait produce no modelled observable effect; the request body
is assembled per user type (lines 266-281); a fetch fault or a non-ok
response logs and drives the state to FAILED (lines 284-304); an ok
response whose type is not "SESSION_DESCRIPTION" logs and returns with no
state change (lines 307-314); otherwise the remote description
(answer.data) is applied (lines 318-319). -/
def Connection.negotiate (c : Connection) (env : NegotiateEnv) : Connection × List Effect :=
  let request : OfferRequest :=
    match c.userType with
    | UserType.participant =>
        { sdp := env.localSdp, descType := env.localDescType, user_type := "participant",
          session_id := c.sessionId, participant_id := c.participantId }
    | UserType.experimenter =>
        { sdp := env.localSdp, descType := env.localDescType, user_type := "experimenter",
          session_id := none, participant_id := none }
  match env.fetchOutcome with
  | FetchOutcome.fault m =>
      let r := c.setState ConnectionState.FAILED
      (r.1, Effect.fetchOffer request ::
            Effect.logError ("Failed to connect to backend. " ++ m) :: r.2)
  | FetchOutcome.response ok body =>
      if ok then
        match msgType body with
        | some t =>
            if t = "SESSION_DESCRIPTION" then
              (c, [Effect.fetchOffer request,
                   Effect.setRemoteDesc ((body.getField "data").getD Json.null)])
            else
              (c, [Effect.fetchOffer request,
                   Effect.logInfo "Received unexpected answer from backend."])
        | none =>
            (c, [Effect.fetchOffer request,
                 Effect.logInfo "Received unexpected answer from backend."])
      else
        let r := c.setState ConnectionState.FAILED
        (r.1, Effect.fetchOffer request ::
              Effect.logError "Failed to connect to backend. Response not ok" :: r.2)

/-- start (lines 106-124): a participant without a local stream throws a
media error before anything else; a non-NOT_STARTED state throws a state
error; otherwise the local stream is stored, the state is driven to
CONNECTING, each local track is added to the main peer connection, and
negotiation runs.  An error result leaves the connection untouched and
produces no effect. -/
def Connection.start (c : Connection) (localStream : Option (List Nat)) (env : NegotiateEnv) :
    Connection × List Effect × Option ConnError :=
  if localStream.isNone ∧ c.userType = UserType.participant then
    (c, [], some ConnError.mediaError)
  else if c.state ≠ ConnectionState.NOT_STARTED then
    (c, [], some ConnError.stateError)
  else
    let c1 := { c with localStream := localStream }
    let r1 := c1.setState ConnectionState.CONNECTING
    let tracks := localStream.getD []
    let c2 := { r1.1 with
                mainPc := { r1.1.mainPc with
                            senders := r1.1.mainPc.senders ++ tracks,
                            transceivers := r1.1.mainPc.transceivers ++ tracks } }
    let r2 := c2.negotiate env
    (r2.1, r1.2 ++ tracks.map Effect.addTrack ++ r2.2, none)

/-- stop (lines 126-153): unconditionally drive the state to DISCONNECTED
(with its trigger), then, unless the main peer connection is already
closed, stop every transceiver, stop the track of every sender, and
schedule the peer-connection close after the 500ms grace delay. -/
def Connection.stop (c : Connection) : Connection × List Effect :=
  let r := c.setState ConnectionState.DISCONNECTED
  if r.1.mainPc.connectionState = "closed" then
    (r.1, r.2)
  else
    (r.1, r.2 ++ r.1.mainPc.transceivers.map Effect.transceiverStop
              ++ r.1.mainPc.senders.map Effect.trackStop
              ++ [Effect.scheduleMainPcClose])

/-- sendMessage (lines 155-165): throws unless the state is CONNECTED;
otherwise stringifies the envelope and writes it to the data channel. -/
def Connection.sendMessage (c : Connection) (endpoint : String) (data : Json) :
    Connection × List Effect × Option ConnError :=
  if c.state ≠ ConnectionState.CONNECTED then
    (c, [], some ConnError.stateError)
  else
    (c, [Effect.dcSend (Json.stringify
          (Json.obj [("type", Json.str endpoint), ("data", data)]))], none)

/-- Modelled from the spec: the function isValidMessage of
networking/Message.ts is imported by the Connection but its source is not
in the repository snapshot; per the spec, a message envelope is
`\x7btype: string, data: any\x7d`, so a payload is valid exactly when it
carries a string `type` field and a `data` field. -/
def isValidMessage (j : Json) : Bool :=
  match msgType j, j.getField "data" with
  | some _, some _ => true
  | _, _ => false

/-- handleDcMessage (lines 224-238): a payload that fails JSON.parse
(modelled as `none`) is logged and dropped; a parsed payload failing
validation is logged and dropped; otherwise the message is logged and
dispatched through the api handler keyed by its type (the dispatch carries
the handlers subscribed for that type, in registration order; modelled
from the spec for the dispatcher of ConnectionEvents.ts, which is not in
the repository snapshot: all handlers of the type run, a type with no
subscribers is a no-op). -/
def Connection.handleDcMessage (c : Connection) (parsed : Option Json) :
    Connection × List Effect :=
  match parsed with
  | none => (c, [Effect.logError "Failed to parse datachannel message received from the server."])
  | some message =>
      if isValidMessage message then
        (c, [Effect.logInfo "Received",
             Effect.apiDispatch ((msgType message).getD "")
               ((c.apiHandlers.lookup ((msgType message).getD "")).getD [])
               ((message.getField "data").getD Json.null)])
      else
        (c, [Effect.logError "Received invalid message."])

/-- dc.onopen callback (lines 217-220): sets the state to CONNECTED. -/
def Connection.handleDcOpen (c : Connection) : Connection × List Effect :=
  c.setState ConnectionState.CONNECTED

/-- dc.onclose callback (lines 213-216): calls stop. -/
def Connection.handleDcClose (c : Connection) : Connection × List Effect :=
  c.stop

/-- track event listener of the main peer connection (lines 196-208): a
track of unknown kind is logged and ignored; an audio or video track is
added to the remote stream and the stream-change handlers run. -/
def Connection.handleTrackEvent (c : Connection) (kind : String) (track : Nat) :
    Connection × List Effect :=
  if kind ≠ "video" ∧ kind ≠ "audio" then
    (c, [Effect.logError "Received track with unknown kind"])
  else
    ({ c with remoteTracks := c.remoteTracks ++ [track] }, [Effect.streamNotify])

/-- One externally triggered operation on a Connection. -/
inductive Op where
  | opStart (localStream : Option (List Nat)) (env : NegotiateEnv)
  | opStop
  | dcOpen
  | dcClose
  | dcMessage (parsed : Option Json)
  | trackEvent (kind : String) (track : Nat)
  | send (endpoint : String) (data : Json)

/-- Execute one operation (a thrown error leaves the connection as it
was, which the method models already). -/
def Connection.step (c : Connection) (op : Op) : Connection × List Effect :=
  match op with
  | Op.opStart ls env => ((c.start ls env).1, (c.start ls env).2.1)
  | Op.opStop => c.stop
  | Op.dcOpen => c.handleDcOpen
  | Op.dcClose => c.handleDcClose
  | Op.dcMessage p => c.handleDcMessage p
  | Op.trackEvent k t => c.handleTrackEvent k t
  | Op.send e d => ((c.sendMessage e d).1, (c.sendMessage e d).2.1)

/-- Execute a sequence of operations, concatenating effects. -/
def Connection.run (c : Connection) : List Op → Connection × List Effect
  | [] => (c, [])
  | op :: rest =>
      ((c.step op).1.run rest |>.1, (c.step op).2 ++ ((c.step op).1.run rest).2)

/-- The state-change notifications among a list of effects, in order. -/
def stateNotifs (effects : List Effect) : List ConnectionState :=
  effects.filterMap fun e =>
    match e with
    | Effect.stateNotify s => some s
    | _ => none

/-- The offer requests issued among a list of effects. -/
def fetchOffers (effects : List Effect) : List OfferRequest :=
  effects.filterMap fun e =>
    match e with
    | Effect.fetchOffer req => some req
    | _ => none

/-- The data-channel writes among a list of effects. -/
def dcSends (effects : List Effect) : List String :=
  effects.filterMap fun e =>
    match e with
    | Effect.dcSend p => some p
    | _ => none

/-- The transceiver-stop operations among a list of effects. -/
def transceiverStops (effects : List Effect) : List Nat :=
  effects.filterMap fun e =>
    match e with
    | Effect.transceiverStop t => some t
    | _ => none

/-- The local-track-stop operations among a list of effects. -/
def trackStops (effects : List Effect) : List Nat :=
  effects.filterMap fun e =>
    match e with
    | Effect.trackStop t => some t
    | _ => none

/-- Counts the setRemoteDescription applications among a list of effects. -/
def countRemoteDescSets (effects : List Effect) : Nat :=
  (effects.filterMap fun e =>
    match e with
    | Effect.setRemoteDesc d => some d
    | _ => none).length

/-- The handler ids invoked through api dispatch among a list of effects. -/
def dispatchedHandlers (effects : List Effect) : List Nat :=
  (effects.filterMap fun e =>
    match e with
    | Effect.apiDispatch _ hs _ => some hs
    | _ => none).flatten

/-- CONNECTION_ANSWER payload received by a SubConnection
(networking/SubConnection.ts): a peer id and the answer description. -/
structure ConnectionAnswer where
  id : String
  answer : Json

/-- State of one SubConnection of networking/SubConnection.ts: its peer
id, the stopped flag, and the list of descriptions that have been applied
through pc.setRemoteDescription, in call order. -/
structure SubConnection where
  id : String
  stopped : Bool
  appliedRemoteDescs : List Json

/-- handleAnswer of networking/SubConnection.ts (lines 59-62): applies
`answer.answer` through pc.setRemoteDescription unconditionally; there is
no comparison of `answer.id` against this instance and no
already-handled guard (the source carries a TODO comment for the latter). -/
def SubConnection.handleAnswer (sc : SubConnection) (answer : ConnectionAnswer) :
    SubConnection :=
  { sc with appliedRemoteDescs := sc.appliedRemoteDescs ++ [answer.answer] }

/-- Concrete experimenter connection freshly constructed. -/
def cExp : Connection := freshConn UserType.experimenter none none

/-- Concrete participant connection freshly constructed with session id
"S" and participant id "U". -/
def cPart : Connection := freshConn UserType.participant (some "S") (some "U")

/-- Negotiation environment whose fetch rejects. -/
def envFault : NegotiateEnv :=
  { localSdp := "sdp0", localDescType := "offer", fetchOutcome := FetchOutcome.fault "net" }

/-- Negotiation environment with an ok response whose type field is
"TEST" rather than "SESSION_DESCRIPTION". -/
def envBadType : NegotiateEnv :=
  { localSdp := "sdp0", localDescType := "offer",
    fetchOutcome := FetchOutcome.response true (Json.obj [("type", Json.str "TEST")]) }

/-- Negotiation environment with a non-ok HTTP response. -/
def envNotOk : NegotiateEnv :=
  { localSdp := "sdp0", localDescType := "offer",
    fetchOutcome := FetchOutcome.response false Json.null }

/-- Whether a fetch outcome is an HTTP failure: a transport fault or a
response with ok = false. -/
def FetchOutcome.failed : FetchOutcome → Bool
  | FetchOutcome.fault _ => true
  | FetchOutcome.response ok _ => !ok

/-- Connection after a start whose offer request suffered a transport
fault: a reachable instance in state FAILED. -/
def cFailed : Connection := (cExp.start none envFault).1

/-- Connection in state CONNECTED, reached through the data-channel open
callback. -/
def cConnected : Connection := (cExp.handleDcOpen).1

/-- Participant connection with one local track after a start whose offer
request suffered a transport fault. -/
def cPartStarted : Connection := (cPart.start (some [7]) envFault).1

/-- First stop call on `cPartStarted`. -/
def stopOnce : Connection × List Effect := cPartStarted.stop

/-- Second stop call, on the result of the first. -/
def stopTwice : Connection × List Effect := (stopOnce).1.stop

/-- SubConnection instance with peer id "a" and nothing applied yet. -/
def subA : SubConnection := { id := "a", stopped := false, appliedRemoteDescs := [] }

/-- CONNECTION_ANSWER addressed to peer id "b". -/
def ansB : ConnectionAnswer := { id := "b", answer := Json.str "desc-for-b" }

/-- Connection with one registered api handler list for the SESSION_LIST
message type (handler ids 3 and 4, in registration order). -/
def cWithHandler : Connection := { cExp with apiHandlers := [("SESSION_LIST", [3, 4])] }

/-- A valid inbound message envelope. -/
def msgSessionList : Json :=
  Json.obj [("type", Json.str "SESSION_LIST"), ("data", Json.arr [])]

/-- The malformed envelope of the spec example: its type field is the
number 5, not a string. -/
def msgBadEnvelope : Json := Json.obj [("type", Json.num 5)]

/-- Alignment of the three instrumentation logs: every stored state was
notified in order, and every notification was observed by handlers as the
current state. -/
def LogsAligned (c : Connection) : Prop :=
  c.notifLog = c.stateLog ∧ c.observedLog = c.notifLog

/-!
Helper lemmas about the model, shared by the claim theorems.
-/

theorem stateNotifs_append (a b : List Effect) :
    stateNotifs (a ++ b) = stateNotifs a ++ stateNotifs b := by
  simp [stateNotifs]

theorem stateNotifs_map_addTrack (l : List Nat) :
    stateNotifs (l.map Effect.addTrack) = [] := by
  induction l with
  | nil => rfl
  | cons x xs ih => simp [stateNotifs, List.filterMap] at ih ⊢

theorem stateNotifs_map_transceiverStop (l : List Nat) :
    stateNotifs (l.map Effect.transceiverStop) = [] := by
  induction l with
  | nil => rfl
  | cons x xs ih => simp [stateNotifs, List.filterMap] at ih ⊢

theorem stateNotifs_map_trackStop (l : List Nat) :
    stateNotifs (l.map Effect.trackStop) = [] := by
  induction l with
  | nil => rfl
  | cons x xs ih => simp [stateNotifs, List.filterMap] at ih ⊢

theorem dcSends_append (a b : List Effect) :
    dcSends (a ++ b) = dcSends a ++ dcSends b := by
  simp [dcSends]

theorem dcSends_map_addTrack (l : List Nat) :
    dcSends (l.map Effect.addTrack) = [] := by
  induction l with
  | nil => rfl
  | cons x xs ih => simp [dcSends, List.filterMap] at ih ⊢

theorem stop_fst_state (c : Connection) :
    (c.stop).1.state = ConnectionState.DISCONNECTED := by
  unfold Connection.stop Connection.setState Connection.storeState Connection.triggerStateChange
  dsimp only
  split <;> rfl

theorem stop_fst_mainPc (c : Connection) : (c.stop).1.mainPc = c.mainPc := by
  unfold Connection.stop Connection.setState Connection.storeState Connection.triggerStateChange
  dsimp only
  split <;> rfl

theorem stop_stateNotifs (c : Connection) :
    stateNotifs (c.stop).2 = [ConnectionState.DISCONNECTED] := by
  unfold Connection.stop Connection.setState Connection.storeState Connection.triggerStateChange
  dsimp only
  split
  · rfl
  · simp [stateNotifs_append, stateNotifs_map_transceiverStop, stateNotifs_map_trackStop,
      stateNotifs]

theorem stop_fst_notifLog (c : Connection) :
    (c.stop).1.notifLog = c.notifLog ++ [ConnectionState.DISCONNECTED] := by
  unfold Connection.stop Connection.setState Connection.storeState Connection.triggerStateChange
  dsimp only
  split <;> rfl

theorem start_of_not_notStarted (c : Connection) (ls : Option (List Nat)) (env : NegotiateEnv)
    (h : c.state ≠ ConnectionState.NOT_STARTED) :
    (c.start ls env).1 = c ∧ (c.start ls env).2.1 = [] ∧ (c.start ls env).2.2.isSome = true := by
  unfold Connection.start
  split
  · exact ⟨rfl, rfl, rfl⟩
  · exact ⟨rfl, rfl, rfl⟩

theorem setState_fst_state (c : Connection) (s : ConnectionState) :
    (c.setState s).1.state = s := rfl

theorem setState_fst_stateLog (c : Connection) (s : ConnectionState) :
    (c.setState s).1.stateLog = c.stateLog ++ [s] := rfl

theorem setState_fst_notifLog (c : Connection) (s : ConnectionState) :
    (c.setState s).1.notifLog = c.notifLog ++ [s] := rfl

theorem setState_fst_observedLog (c : Connection) (s : ConnectionState) :
    (c.setState s).1.observedLog = c.observedLog ++ [s] := rfl

theorem setState_snd (c : Connection) (s : ConnectionState) :
    (c.setState s).2 = [Effect.stateNotify s] := rfl

theorem negotiate_fst_cases (c : Connection) (env : NegotiateEnv) :
    (c.negotiate env).1 = c ∨
    (c.negotiate env).1 = (c.setState ConnectionState.FAILED).1 := by
  unfold Connection.negotiate
  rcases env with ⟨sdp, dt, fo⟩
  cases fo with
  | fault m => exact Or.inr rfl
  | response ok body =>
      cases ok with
      | false => exact Or.inr rfl
      | true =>
          cases hm : msgType body with
          | none => simp [hm]
          | some t =>
              by_cases ht : t = "SESSION_DESCRIPTION" <;> simp [hm, ht]

theorem handleDcMessage_fst (c : Connection) (p : Option Json) :
    (c.handleDcMessage p).1 = c := by
  unfold Connection.handleDcMessage
  cases p with
  | none => rfl
  | some m =>
      dsimp only
      split
      · rfl
      · rfl

theorem sendMessage_fst (c : Connection) (e : String) (d : Json) :
    (c.sendMessage e d).1 = c := by
  unfold Connection.sendMessage
  split
  · rfl
  · rfl

theorem handleTrackEvent_fst_state (c : Connection) (k : String) (t : Nat) :
    (c.handleTrackEvent k t).1.state = c.state := by
  unfold Connection.handleTrackEvent
  split
  · rfl
  · rfl

theorem construct_ok_eq (ut : UserType) (sid pid : Option String) (c : Connection)
    (hc : Connection.construct ut sid pid = Except.ok c) : c = freshConn ut sid pid := by
  unfold Connection.construct at hc
  split at hc
  · cases hc
  · injection hc with h
    exact h.symm

/-- The three instrumentation logs of `c2` extend those of `c1` by one
common suffix: between the two, every stored state was notified once and
observed once, in the same order. -/
def LogDelta (c1 c2 : Connection) : Prop :=
  ∃ u, c2.stateLog = c1.stateLog ++ u ∧ c2.notifLog = c1.notifLog ++ u ∧
       c2.observedLog = c1.observedLog ++ u

theorem logDelta_refl (c : Connection) : LogDelta c c :=
  ⟨[], by simp⟩

theorem logDelta_trans {c1 c2 c3 : Connection} (h1 : LogDelta c1 c2) (h2 : LogDelta c2 c3) :
    LogDelta c1 c3 := by
  obtain ⟨u, hu1, hu2, hu3⟩ := h1
  obtain ⟨v, hv1, hv2, hv3⟩ := h2
  exact ⟨u ++ v, by simp [hv1, hu1], by simp [hv2, hu2], by simp [hv3, hu3]⟩

theorem setState_logDelta (c : Connection) (s : ConnectionState) :
    LogDelta c (c.setState s).1 :=
  ⟨[s], rfl, rfl, rfl⟩

theorem negotiate_logDelta (c : Connection) (env : NegotiateEnv) :
    LogDelta c (c.negotiate env).1 := by
  rcases negotiate_fst_cases c env with h | h
  · rw [h]; exact logDelta_refl c
  · rw [h]; exact setState_logDelta c ConnectionState.FAILED

theorem stop_logDelta (c : Connection) : LogDelta c (c.stop).1 := by
  unfold Connection.stop
  dsimp only
  split
  · exact setState_logDelta c ConnectionState.DISCONNECTED
  · exact setState_logDelta c ConnectionState.DISCONNECTED

theorem start_logDelta (c : Connection) (ls : Option (List Nat)) (env : NegotiateEnv) :
    LogDelta c (c.start ls env).1 := by
  unfold Connection.start
  split
  · exact logDelta_refl c
  · split
    · exact logDelta_refl c
    · dsimp only
      refine logDelta_trans ?_ (negotiate_logDelta _ env)
      exact ⟨[ConnectionState.CONNECTING], rfl, rfl, rfl⟩

theorem step_opStart (c : Connection) (ls : Option (List Nat)) (env : NegotiateEnv) :
    c.step (Op.opStart ls env) = ((c.start ls env).1, (c.start ls env).2.1) := rfl

theorem step_opStop (c : Connection) : c.step Op.opStop = c.stop := rfl

theorem step_dcOpen (c : Connection) :
    c.step Op.dcOpen = c.setState ConnectionState.CONNECTED := rfl

theorem step_dcClose (c : Connection) : c.step Op.dcClose = c.stop := rfl

theorem step_dcMessage (c : Connection) (p : Option Json) :
    c.step (Op.dcMessage p) = c.handleDcMessage p := rfl

theorem step_trackEvent (c : Connection) (k : String) (t : Nat) :
    c.step (Op.trackEvent k t) = c.handleTrackEvent k t := rfl

theorem step_send (c : Connection) (e : String) (d : Json) :
    c.step (Op.send e d) = ((c.sendMessage e d).1, (c.sendMessage e d).2.1) := rfl

theorem handleTrackEvent_logDelta (c : Connection) (k : String) (t : Nat) :
    LogDelta c (c.handleTrackEvent k t).1 := by
  unfold Connection.handleTrackEvent
  split
  · exact logDelta_refl c
  · exact ⟨[], by simp⟩

theorem step_logDelta (c : Connection) (op : Op) : LogDelta c (c.step op).1 := by
  cases op with
  | opStart ls env => rw [step_opStart]; exact start_logDelta c ls env
  | opStop => rw [step_opStop]; exact stop_logDelta c
  | dcOpen => rw [step_dcOpen]; exact setState_logDelta c ConnectionState.CONNECTED
  | dcClose => rw [step_dcClose]; exact stop_logDelta c
  | dcMessage p => rw [step_dcMessage, handleDcMessage_fst]; exact logDelta_refl c
  | trackEvent k t => rw [step_trackEvent]; exact handleTrackEvent_logDelta c k t
  | send e d => rw [step_send]; dsimp only; rw [sendMessage_fst]; exact logDelta_refl c

theorem run_logDelta (c : Connection) (ops : List Op) : LogDelta c (c.run ops).1 := by
  induction ops generalizing c with
  | nil => exact logDelta_refl c
  | cons op rest ih =>
      unfold Connection.run
      exact logDelta_trans (step_logDelta c op) (ih (c.step op).1)

theorem logsAligned_of_logDelta {c1 c2 : Connection} (h : LogsAligned c1)
    (hd : LogDelta c1 c2) : LogsAligned c2 := by
  obtain ⟨h1, h2⟩ := h
  obtain ⟨u, hu1, hu2, hu3⟩ := hd
  exact ⟨by rw [hu2, hu1, h1], by rw [hu3, hu2, h2]⟩

theorem step_state_stays_started (c : Connection) (op : Op)
    (h : c.state ≠ ConnectionState.NOT_STARTED) :
    (c.step op).1.state ≠ ConnectionState.NOT_STARTED := by
  cases op with
  | opStart ls env =>
      rw [step_opStart]
      dsimp only
      rw [(start_of_not_notStarted c ls env h).1]
      exact h
  | opStop => rw [step_opStop, stop_fst_state]; simp
  | dcOpen => rw [step_dcOpen, setState_fst_state]; simp
  | dcClose => rw [step_dcClose, stop_fst_state]; simp
  | dcMessage p => rw [step_dcMessage, handleDcMessage_fst]; exact h
  | trackEvent k t => rw [step_trackEvent, handleTrackEvent_fst_state]; exact h
  | send e d => rw [step_send]; dsimp only; rw [sendMessage_fst]; exact h

theorem run_state_stays_started (c : Connection) (ops : List Op)
    (h : c.state ≠ ConnectionState.NOT_STARTED) :
    (c.run ops).1.state ≠ ConnectionState.NOT_STARTED := by
  induction ops generalizing c with
  | nil => exact h
  | cons op rest ih =>
      unfold Connection.run
      exact ih (c.step op).1 (step_state_stays_started c op h)

theorem setState_fst_mainPc (c : Connection) (s : ConnectionState) :
    (c.setState s).1.mainPc = c.mainPc := rfl

theorem stop_snd_mainPc (c : Connection) :
    (c.stop).2 = Effect.stateNotify ConnectionState.DISCONNECTED ::
      (if c.mainPc.connectionState = "closed" then []
       else c.mainPc.transceivers.map Effect.transceiverStop
            ++ c.mainPc.senders.map Effect.trackStop ++ [Effect.scheduleMainPcClose]) := by
  unfold Connection.stop
  dsimp only
  rw [setState_fst_mainPc, setState_snd]
  by_cases hcl : c.mainPc.connectionState = "closed"
  · rw [if_pos hcl, if_pos hcl]
  · rw [if_neg hcl, if_neg hcl]
    simp

theorem stop_snd_eq (c1 c2 : Connection) (h : c1.mainPc = c2.mainPc) :
    (c1.stop).2 = (c2.stop).2 := by
  rw [stop_snd_mainPc, stop_snd_mainPc, h]

/-- C1: the claim states that an offer response with a successful HTTP
status whose type differs from SESSION_DESCRIPTION drives the state to
FAILED.  Counterexample on the code: starting a fresh experimenter
connection against an ok response of type TEST leaves the ConnectionState
CONNECTING, not FAILED (negotiate logs and returns without setState). -/
theorem C1_counterexample :
    envBadType.fetchOutcome =
      FetchOutcome.response true (Json.obj [("type", Json.str "TEST")]) ∧
    (cExp.start none envBadType).1.state = ConnectionState.CONNECTING ∧
    (cExp.start none envBadType).1.state ≠ ConnectionState.FAILED ∧
    countRemoteDescSets (cExp.start none envBadType).2.1 = 0 :=
  ⟨rfl, rfl, by decide, rfl⟩

/-- C1 (amended): when the offer response is HTTP-successful but its type
is not SESSION_DESCRIPTION, negotiation aborts without applying the remote
description, without any state change and without any state-change
notification; the state keeps its previous value (CONNECTING during a
start) rather than becoming FAILED. -/
theorem C1_amended_unexpected_type_keeps_state (c : Connection) (sdp dt : String)
    (body : Json) (h : msgType body ≠ some "SESSION_DESCRIPTION") :
    (c.negotiate ⟨sdp, dt, FetchOutcome.response true body⟩).1 = c ∧
    stateNotifs (c.negotiate ⟨sdp, dt, FetchOutcome.response true body⟩).2 = [] ∧
    countRemoteDescSets (c.negotiate ⟨sdp, dt, FetchOutcome.response true body⟩).2 = 0 := by
  unfold Connection.negotiate
  cases hm : msgType body with
  | none => simp [hm, stateNotifs, countRemoteDescSets, List.filterMap]
  | some t =>
      have ht : ¬(t = "SESSION_DESCRIPTION") := fun he => h (by rw [hm, he])
      simp [hm, ht, stateNotifs, countRemoteDescSets, List.filterMap]

/-- C1 (amended) witnessed at the concrete TEST response. -/
theorem C1_amended_witness :
    msgType (Json.obj [("type", Json.str "TEST")]) ≠ some "SESSION_DESCRIPTION" ∧
    (cExp.negotiate ⟨"sdp0", "offer",
        FetchOutcome.response true (Json.obj [("type", Json.str "TEST")])⟩).1 = cExp :=
  ⟨by decide,
   (C1_amended_unexpected_type_keeps_state cExp "sdp0" "offer"
      (Json.obj [("type", Json.str "TEST")]) (by decide)).1⟩

/-- C2: the claim states DISCONNECTED and FAILED are terminal and that
stop() is a no-op on them.  Counterexample on the code: on a reachable
FAILED connection, stop() stores DISCONNECTED and emits one more
state-change notification. -/
theorem C2_counterexample :
    cFailed.state = ConnectionState.FAILED ∧
    (cFailed.stop).1.state = ConnectionState.DISCONNECTED ∧
    stateNotifs (cFailed.stop).2 = [ConnectionState.DISCONNECTED] ∧
    (cFailed.stop).1.notifLog = cFailed.notifLog ++ [ConnectionState.DISCONNECTED] :=
  ⟨rfl, rfl, rfl, rfl⟩

/-- C2 (amended): terminality is enforced only against start: on a
DISCONNECTED or FAILED connection start() fails and changes nothing, but
stop() still stores DISCONNECTED and emits a state-change notification
(in particular FAILED transitions to DISCONNECTED), and a channel-open
event still stores CONNECTED. -/
theorem C2_amended_partial_terminality (c : Connection)
    (h : c.state = ConnectionState.DISCONNECTED ∨ c.state = ConnectionState.FAILED) :
    (∀ (ls : Option (List Nat)) (env : NegotiateEnv),
        (c.start ls env).1 = c ∧ (c.start ls env).2.1 = [] ∧
        (c.start ls env).2.2.isSome = true) ∧
    (c.stop).1.state = ConnectionState.DISCONNECTED ∧
    stateNotifs (c.stop).2 = [ConnectionState.DISCONNECTED] ∧
    (c.handleDcOpen).1.state = ConnectionState.CONNECTED := by
  have hne : c.state ≠ ConnectionState.NOT_STARTED := by
    rcases h with h | h <;> rw [h] <;> simp
  exact ⟨fun ls env => start_of_not_notStarted c ls env hne,
    stop_fst_state c, stop_stateNotifs c, rfl⟩

/-- C2 (amended) witnessed at the concrete FAILED connection. -/
theorem C2_amended_witness :
    (cFailed.state = ConnectionState.DISCONNECTED ∨
      cFailed.state = ConnectionState.FAILED) ∧
    (cFailed.stop).1.state = ConnectionState.DISCONNECTED :=
  ⟨Or.inr rfl, (C2_amended_partial_terminality cFailed (Or.inr rfl)).2.1⟩

/-- C3: the claim states a second stop() has no further observable effect.
Counterexample on the code: on a participant connection with one local
track, the second stop() call emits another DISCONNECTED state-change
notification and repeats the transceiver-stop and track-stop operations of
the first call. -/
theorem C3_counterexample :
    (stopOnce).1.state = ConnectionState.DISCONNECTED ∧
    stateNotifs (stopOnce).2 = [ConnectionState.DISCONNECTED] ∧
    transceiverStops (stopOnce).2 = [7] ∧ trackStops (stopOnce).2 = [7] ∧
    stateNotifs (stopTwice).2 = [ConnectionState.DISCONNECTED] ∧
    transceiverStops (stopTwice).2 = [7] ∧ trackStops (stopTwice).2 = [7] :=
  ⟨rfl, rfl, rfl, rfl, rfl, rfl, rfl⟩

/-- C3 (amended): after stop() the state is DISCONNECTED, but stop() is
not idempotent in observable effect: a second call produces exactly the
same effect list as the first — another DISCONNECTED notification and,
while the peer connection has not yet reached "closed" (its close is
deferred by the 500ms grace delay), the same transceiver-stop and
track-stop operations again. -/
theorem C3_amended_stop_not_idempotent (c : Connection) :
    (c.stop).1.state = ConnectionState.DISCONNECTED ∧
    ((c.stop).1.stop).2 = (c.stop).2 ∧
    stateNotifs ((c.stop).1.stop).2 = [ConnectionState.DISCONNECTED] ∧
    ((c.stop).1.stop).1.notifLog
      = c.notifLog ++ [ConnectionState.DISCONNECTED, ConnectionState.DISCONNECTED] := by
  refine ⟨stop_fst_state c, stop_snd_eq _ _ (stop_fst_mainPc c), stop_stateNotifs _, ?_⟩
  rw [stop_fst_notifLog, stop_fst_notifLog]
  simp

/-- C4: handleAnswer of the Peer Transport applies the remote description
unconditionally: an answer whose id differs from the SubConnection id is
still applied rather than dropped, and a second delivery of the same
answer is applied again (the source carries a TODO comment for the missing
already-handled check). -/
theorem C4_handleAnswer_applies_unconditionally :
    subA.id ≠ ansB.id ∧
    (subA.handleAnswer ansB).appliedRemoteDescs = [ansB.answer] ∧
    ((subA.handleAnswer ansB).handleAnswer ansB).appliedRemoteDescs
      = [ansB.answer, ansB.answer] :=
  ⟨by decide, rfl, rfl⟩

/-- C9: for a connection constructed with the participant identity,
start() without local media fails with the media error before anything
happens: the connection is unchanged, no offer request is issued, no track
is attached, and the state stays NOT_STARTED. -/
theorem C9_participant_media_required (sid pid : Option String) (c : Connection)
    (env : NegotiateEnv)
    (hc : Connection.construct UserType.participant sid pid = Except.ok c) :
    c.state = ConnectionState.NOT_STARTED ∧
    c.start none env = (c, [], some ConnError.mediaError) ∧
    fetchOffers (c.start none env).2.1 = [] ∧
    (c.start none env).1.mainPc.senders = c.mainPc.senders ∧
    (c.start none env).1.state = ConnectionState.NOT_STARTED := by
  have he := construct_ok_eq _ _ _ _ hc
  subst he
  exact ⟨rfl, rfl, rfl, rfl, rfl⟩

/-- C9 witnessed at session id S, participant id U. -/
theorem C9_witness :
    Connection.construct UserType.participant (some "S") (some "U") = Except.ok cPart ∧
    cPart.start none envFault = (cPart, [], some ConnError.mediaError) :=
  ⟨rfl, (C9_participant_media_required (some "S") (some "U") cPart envFault rfl).2.1⟩

/-- C5: start succeeds at most once per instance: on any connection whose
state is not NOT_STARTED, start() throws and changes nothing (no effect,
no notification); a start from NOT_STARTED with the required media records
CONNECTING as its first and only new transition; and no operation ever
returns the state to NOT_STARTED, so every start() after the first
successful one fails with the connection unchanged. -/
theorem C5_start_exactly_once :
    (∀ (c : Connection) (ls : Option (List Nat)) (env : NegotiateEnv),
        c.state ≠ ConnectionState.NOT_STARTED →
        (c.start ls env).1 = c ∧ (c.start ls env).2.1 = [] ∧
        (c.start ls env).2.2.isSome = true) ∧
    (∀ (c : Connection) (ls : Option (List Nat)) (env : NegotiateEnv),
        c.state = ConnectionState.NOT_STARTED →
        ¬(ls.isNone = true ∧ c.userType = UserType.participant) →
        ∃ u, (c.start ls env).1.stateLog
          = c.stateLog ++ ConnectionState.CONNECTING :: u) ∧
    (∀ (c : Connection) (ops : List Op),
        c.state ≠ ConnectionState.NOT_STARTED →
        (c.run ops).1.state ≠ ConnectionState.NOT_STARTED) := by
  refine ⟨fun c ls env h => start_of_not_notStarted c ls env h, ?_,
    fun c ops h => run_state_stays_started c ops h⟩
  intro c ls env h1 h2
  unfold Connection.start
  rw [if_neg h2, if_neg (not_not_intro h1)]
  dsimp only
  obtain ⟨u, hu1, -, -⟩ := negotiate_logDelta
    ({ ({ c with localStream := ls }.setState ConnectionState.CONNECTING).1 with
       mainPc := { ({ c with localStream := ls }.setState
                      ConnectionState.CONNECTING).1.mainPc with
                   senders := ({ c with localStream := ls }.setState
                      ConnectionState.CONNECTING).1.mainPc.senders ++ ls.getD [],
                   transceivers := ({ c with localStream := ls }.setState
                      ConnectionState.CONNECTING).1.mainPc.transceivers ++ ls.getD [] } }) env
  refine ⟨u, ?_⟩
  rw [hu1]
  simp [Connection.setState, Connection.storeState, Connection.triggerStateChange]

/-- C5 witnessed: a started (FAILED) connection rejects start unchanged; a
fresh experimenter connection records CONNECTING on its first start; and
after further operations the state never returns to NOT_STARTED. -/
theorem C5_witness :
    (cFailed.state ≠ ConnectionState.NOT_STARTED ∧
      (cFailed.start none envFault).1 = cFailed) ∧
    (cExp.state = ConnectionState.NOT_STARTED ∧
      ∃ u, (cExp.start none envFault).1.stateLog
        = cExp.stateLog ++ ConnectionState.CONNECTING :: u) ∧
    (cFailed.run [Op.opStop]).1.state ≠ ConnectionState.NOT_STARTED :=
  ⟨⟨by decide, (C5_start_exactly_once.1 cFailed none envFault (by decide)).1⟩,
   ⟨rfl, C5_start_exactly_once.2.1 cExp none envFault rfl (by decide)⟩,
   C5_start_exactly_once.2.2 cFailed [Op.opStop] (by decide)⟩

/-- C6: sendMessage fails synchronously with a state error, writes nothing
and changes nothing whenever the state is not CONNECTED; when the state is
CONNECTED it leaves the connection unchanged and writes exactly the JSON
stringification of the envelope to the control channel. -/
theorem C6_sendMessage_contract :
    (∀ (c : Connection) (t : String) (d : Json),
        c.state ≠ ConnectionState.CONNECTED →
        c.sendMessage t d = (c, [], some ConnError.stateError)) ∧
    (∀ (c : Connection) (t : String) (d : Json),
        c.state = ConnectionState.CONNECTED →
        c.sendMessage t d =
          (c, [Effect.dcSend (Json.stringify
            (Json.obj [("type", Json.str t), ("data", d)]))], none)) := by
  constructor
  · intro c t d h
    unfold Connection.sendMessage
    rw [if_pos h]
  · intro c t d h
    unfold Connection.sendMessage
    rw [if_neg (not_not_intro h)]

/-- C6 witnessed on a fresh connection (throws, nothing written) and on a
CONNECTED connection (envelope written verbatim). -/
theorem C6_witness :
    (cExp.state ≠ ConnectionState.CONNECTED ∧
      cExp.sendMessage "PING" Json.null = (cExp, [], some ConnError.stateError)) ∧
    (cConnected.state = ConnectionState.CONNECTED ∧
      cConnected.sendMessage "PING" Json.null =
        (cConnected, [Effect.dcSend (Json.stringify
          (Json.obj [("type", Json.str "PING"), ("data", Json.null)]))], none)) :=
  ⟨⟨by decide, C6_sendMessage_contract.1 cExp "PING" Json.null (by decide)⟩,
   ⟨rfl, C6_sendMessage_contract.2 cConnected "PING" Json.null rfl⟩⟩

/-- C8: an inbound control-channel payload that fails JSON parsing, or
parses but fails envelope validation (such as a type field holding the
number 5), is logged and dropped — the connection is unchanged (so the
state is unchanged), nothing is dispatched and no error escapes (the
handler is total); a payload that parses and validates is dispatched to
exactly the handlers registered for its type.  The validator and the
dispatcher are modelled from the spec, their sources being absent from
the snapshot. -/
theorem C8_invalid_dropped_valid_dispatched :
    (∀ c : Connection, c.handleDcMessage none =
        (c, [Effect.logError
          "Failed to parse datachannel message received from the server."])) ∧
    (∀ (c : Connection) (j : Json), isValidMessage j = false →
        c.handleDcMessage (some j) = (c, [Effect.logError "Received invalid message."])) ∧
    isValidMessage (Json.obj [("type", Json.num 5)]) = false ∧
    (∀ (c : Connection) (j : Json) (t : String) (d : Json),
        j.getField "type" = some (Json.str t) → j.getField "data" = some d →
        c.handleDcMessage (some j) =
          (c, [Effect.logInfo "Received",
               Effect.apiDispatch t ((c.apiHandlers.lookup t).getD []) d])) := by
  refine ⟨fun c => rfl, ?_, rfl, ?_⟩
  · intro c j h
    unfold Connection.handleDcMessage
    dsimp only
    rw [h]
    simp
  · intro c j t d ht hd
    have hm : msgType j = some t := by simp [msgType, ht]
    have hv : isValidMessage j = true := by simp [isValidMessage, hm, hd]
    unfold Connection.handleDcMessage
    dsimp only
    rw [if_pos hv, hm, hd]
    simp

/-- C8 witnessed at the malformed envelope with type 5 (dropped, no
dispatch) and at a valid SESSION_LIST envelope (dispatched to the two
registered handlers in order). -/
theorem C8_witness :
    isValidMessage msgBadEnvelope = false ∧
    cExp.handleDcMessage (some msgBadEnvelope)
      = (cExp, [Effect.logError "Received invalid message."]) ∧
    msgSessionList.getField "type" = some (Json.str "SESSION_LIST") ∧
    msgSessionList.getField "data" = some (Json.arr []) ∧
    cWithHandler.handleDcMessage (some msgSessionList)
      = (cWithHandler, [Effect.logInfo "Received",
          Effect.apiDispatch "SESSION_LIST" [3, 4] (Json.arr [])]) :=
  ⟨rfl,
   C8_invalid_dropped_valid_dispatched.2.1 cExp msgBadEnvelope rfl,
   rfl, rfl,
   (C8_invalid_dropped_valid_dispatched.2.2.2 cWithHandler msgSessionList
      "SESSION_LIST" (Json.arr []) rfl rfl).trans rfl⟩

/-- C10: setState stores the new value into the state field and only then
triggers the notification with that very value, so a handler reading the
public state getter during the notification observes exactly the delivered
value; consequently, over every operation sequence on a constructed
connection, the sequence of notified values equals the sequence of states
the instance has stored after NOT_STARTED, and equals the sequence of
values handlers observed. -/
theorem C10_notifications_carry_stored_state :
    (∀ (c : Connection) (s : ConnectionState),
        (c.setState s).1.state = s ∧
        (c.setState s).2 = [Effect.stateNotify s] ∧
        (c.setState s).1.notifLog = c.notifLog ++ [s] ∧
        (c.setState s).1.observedLog = c.observedLog ++ [s] ∧
        (c.setState s).1.stateLog = c.stateLog ++ [s]) ∧
    (∀ (ut : UserType) (sid pid : Option String) (c : Connection) (ops : List Op),
        Connection.construct ut sid pid = Except.ok c →
        (c.run ops).1.notifLog = (c.run ops).1.stateLog ∧
        (c.run ops).1.observedLog = (c.run ops).1.notifLog) := by
  constructor
  · exact fun c s => ⟨rfl, rfl, rfl, rfl, rfl⟩
  · intro ut sid pid c ops hc
    have he := construct_ok_eq _ _ _ _ hc
    subst he
    exact logsAligned_of_logDelta ⟨rfl, rfl⟩ (run_logDelta _ ops)

/-- C10 witnessed on a concrete operation sequence from a freshly
constructed experimenter connection. -/
theorem C10_witness :
    Connection.construct UserType.experimenter none none = Except.ok cExp ∧
    (cExp.run [Op.opStop, Op.dcOpen]).1.notifLog
      = (cExp.run [Op.opStop, Op.dcOpen]).1.stateLog :=
  ⟨rfl, (C10_notifications_carry_stored_state.2 UserType.experimenter none none cExp
      [Op.opStop, Op.dcOpen] rfl).1⟩

/-- C7: when the offer request suffers an HTTP failure (transport fault or
non-ok response), a started connection goes through exactly the
transitions NOT_STARTED, CONNECTING, FAILED, with exactly one state-change
notification per transition; during the scenario nothing is written to the
control channel and the state never becomes CONNECTED (the channel-open
callback cannot run, since negotiation aborted before a remote description
existed). -/
theorem C7_http_failure_scenario (ut : UserType) (sid pid : Option String)
    (c : Connection) (ls : Option (List Nat)) (env : NegotiateEnv)
    (hc : Connection.construct ut sid pid = Except.ok c)
    (hls : ¬(ls.isNone = true ∧ ut = UserType.participant))
    (hf : env.fetchOutcome.failed = true) :
    c.state = ConnectionState.NOT_STARTED ∧
    (c.start ls env).1.stateLog
      = [ConnectionState.CONNECTING, ConnectionState.FAILED] ∧
    (c.start ls env).1.notifLog
      = [ConnectionState.CONNECTING, ConnectionState.FAILED] ∧
    stateNotifs (c.start ls env).2.1
      = [ConnectionState.CONNECTING, ConnectionState.FAILED] ∧
    (c.start ls env).1.state = ConnectionState.FAILED ∧
    ConnectionState.CONNECTED ∉ (c.start ls env).1.stateLog ∧
    dcSends (c.start ls env).2.1 = [] := by
  have he := construct_ok_eq _ _ _ _ hc
  subst he
  have hls2 : ¬(ls.isNone = true ∧
      (freshConn ut sid pid).userType = UserType.participant) := hls
  obtain ⟨sdp, dt, fo⟩ := env
  have hns : (freshConn ut sid pid).state = ConnectionState.NOT_STARTED := rfl
  unfold Connection.start
  rw [if_neg hls2, if_neg (not_not_intro hns)]
  dsimp only
  cases fo with
  | fault m =>
      unfold Connection.negotiate
      dsimp only
      refine ⟨rfl, rfl, rfl, ?_, rfl, ?_, ?_⟩
      · simp [stateNotifs_append, stateNotifs_map_addTrack, stateNotifs, List.filterMap,
          Connection.setState, Connection.storeState, Connection.triggerStateChange]
      · show ConnectionState.CONNECTED ∉
          [ConnectionState.CONNECTING, ConnectionState.FAILED]
        decide
      · simp [dcSends_append, dcSends_map_addTrack, dcSends, List.filterMap,
          Connection.setState, Connection.storeState, Connection.triggerStateChange]
  | response ok body =>
      cases ok with
      | true => simp [FetchOutcome.failed] at hf
      | false =>
          unfold Connection.negotiate
          dsimp only
          refine ⟨rfl, rfl, rfl, ?_, rfl, ?_, ?_⟩
          · simp [stateNotifs_append, stateNotifs_map_addTrack, stateNotifs,
              List.filterMap, Connection.setState, Connection.storeState,
              Connection.triggerStateChange]
          · show ConnectionState.CONNECTED ∉
              [ConnectionState.CONNECTING, ConnectionState.FAILED]
            decide
          · simp [dcSends_append, dcSends_map_addTrack, dcSends, List.filterMap,
              Connection.setState, Connection.storeState, Connection.triggerStateChange]

/-- C7 witnessed at a concrete experimenter connection whose offer request
suffers a transport fault. -/
theorem C7_witness :
    Connection.construct UserType.experimenter none none = Except.ok cExp ∧
    ¬((none : Option (List Nat)).isNone = true ∧
        UserType.experimenter = UserType.participant) ∧
    envFault.fetchOutcome.failed = true ∧
    (cExp.start none envFault).1.notifLog
      = [ConnectionState.CONNECTING, ConnectionState.FAILED] :=
  ⟨rfl, by decide, rfl,
   (C7_http_failure_scenario UserType.experimenter none none cExp none envFault
      rfl (by decide) rfl).2.2.1⟩
